import Mathlib

/-!
Shallow embedding of the req-log-admin repository (Go, gin middleware with
file/database log sinks) and proofs about it.

Source files embedded:
- logger.go            : LogEntry, Logger interface, MarshalJSON, NewLogEntry
- config.go            : Config, DefaultConfig, DefaultTimeFormat
- middleware (part_001): RequestLoggerWithConfig, GetLogEntry, SetLogField
- file sink (part_002) : FileLogger (NewFileLogger, Write, Close, Flush)
- db sink  (main.go)   : DBLogger (Write, Close, QueryLogs, CountLogs,
                         DeleteOldLogs, EscapeLike)

Conventions of the embedding:
- Go `interface\x7b\x7d` JSON-able values are modelled by the `Json` inductive;
  Go float64 fields that only carry finite decimal values are modelled by ℚ.
- A Go buffered channel at a quiescent point (no goroutine blocked mid
  send/receive) is modelled by the list of its buffered elements together
  with its capacity; a non-blocking `select` send succeeds exactly when the
  buffer holds fewer elements than the capacity.
- `fmt.Fprintf(os.Stderr, ...)` diagnostics are modelled by a counter.
- SQL predicates (`LIKE`, comparisons, `DELETE ... WHERE`) are modelled by
  executable Lean predicates over an explicit list of rows; row-creation
  times are rationals measured in days.
-/

namespace ReqLog

/-- JSON values, the model of Go `interface\x7b\x7d` values that flow through
`encoding/json` (custom fields of a `LogEntry`). -/
inductive Json where
  | null : Json
  | bool : Bool → Json
  | num  : ℚ → Json
  | str  : String → Json
  | arr  : List Json → Json
  | obj  : List (String × Json) → Json
deriving Repr

/-- Model of `LogEntry` (logger.go lines 9-18).  `CustomFields` is a Go map
`map[string]interface\x7b\x7d`; `nil` map and empty map are both modelled by
`none`/`some []` and the serializer treats them alike (Go `omitempty`). -/
structure LogEntry where
  method       : String
  path         : String
  clientIP     : String
  userAgent    : String
  statusCode   : Int
  duration     : ℚ
  timestamp    : String
  customFields : Option (List (String × Json))
deriving Repr

/-- Model of `NewLogEntry` (logger.go lines 42-52): builds an entry with no
custom fields; the Go code divides a `time.Duration` by `time.Millisecond`,
so `duration` is already in milliseconds here. -/
def NewLogEntry (method path clientIP userAgent : String) (statusCode : Int)
    (durationMs : ℚ) (timestamp : String) : LogEntry :=
  { method := method, path := path, clientIP := clientIP,
    userAgent := userAgent, statusCode := statusCode,
    duration := durationMs, timestamp := timestamp, customFields := none }

/-- Insertion of one key/value pair into a key-sorted association list;
used to model Go `encoding/json` sorting map keys on output. -/
def insertByKey (p : String × Json) : List (String × Json) → List (String × Json)
  | [] => [p]
  | q :: qs => if p.1 ≤ q.1 then p :: q :: qs else q :: insertByKey p qs

/-- Key-sorting of an association list, the order `encoding/json` emits the
members of a Go map. -/
def sortByKey : List (String × Json) → List (String × Json)
  | [] => []
  | p :: ps => insertByKey p (sortByKey ps)

/-- Whether the entry's custom-fields map is empty in Go's sense (`nil` map or
zero-length map): such a map is omitted by the `omitempty` JSON tag. -/
def LogEntry.customEmpty (e : LogEntry) : Bool :=
  match e.customFields with
  | none => true
  | some [] => true
  | some (_ :: _) => false

/-- Model of `LogEntry.MarshalJSON` (logger.go lines 32-39): the alias trick
delegates to the standard struct encoding, so the output is one JSON object
whose members follow the struct tags in declaration order
(`method, path, client_ip, user_agent, status_code, duration_ms, timestamp,
custom_fields`), with `custom_fields` carrying `omitempty`. -/
def marshalLogEntry (e : LogEntry) : Json :=
  Json.obj
    ([("method", Json.str e.method),
      ("path", Json.str e.path),
      ("client_ip", Json.str e.clientIP),
      ("user_agent", Json.str e.userAgent),
      ("status_code", Json.num (e.statusCode : ℚ)),
      ("duration_ms", Json.num e.duration),
      ("timestamp", Json.str e.timestamp)] ++
     (match e.customFields with
      | none => []
      | some [] => []
      | some fs => [("custom_fields", Json.obj (sortByKey fs))]))

/-! ## File sink (part_002: FileLogger) -/

/-- Result of a `Write` call: Go `error` as `Option String`
(`none` = success). -/
abbrev WriteResult := Option String

/-- Model of `FileLogger` (part_002 lines 13-21) at a quiescent point.
`fileData` is the sequence of entries durably written to the log file (each
entry becomes one JSON line via `writeEntry`); `buffer` and `capacity` model
the buffered channel `bufferCh`; `asyncStarted` records whether
`startAsyncWriter` ran (i.e. the `async` construction flag); `dropped`
counts the buffer-full diagnostics printed to stderr. -/
structure FileLogger where
  fileData     : List LogEntry
  buffer       : List LogEntry
  capacity     : Nat
  asyncStarted : Bool
  closed       : Bool
  dropped      : Nat
deriving Repr

/-- Model of `NewFileLogger` (part_002 lines 27-45): opens the file (append
mode, fresh file modelled as empty), unconditionally allocates
`bufferCh := make(chan *LogEntry, bufferSize)` — the channel is non-nil in
BOTH modes — and starts the drain goroutine only when `async` is true. -/
def NewFileLogger (async : Bool) (bufferSize : Nat) : FileLogger :=
  { fileData := [], buffer := [], capacity := bufferSize,
    asyncStarted := async, closed := false, dropped := 0 }

/-- Model of `FileLogger.writeEntry` (part_002 lines 72-83): marshals the
entry and appends one line to the file (the bufio writer has size 1, so the
write reaches the file immediately). -/
def FileLogger.writeEntry (l : FileLogger) (entry : LogEntry) : FileLogger :=
  { l with fileData := l.fileData ++ [entry] }

/-- Model of `FileLogger.Write` (part_002 lines 86-108).  Because
`NewFileLogger` always allocates `bufferCh`, the `l.bufferCh != nil` test is
always true and the trailing `writeEntry` call (the "sync mode" branch,
lines 106-107) is unreachable: every non-closed `Write` goes through the
non-blocking channel send, which succeeds at a quiescent point exactly when
the buffer holds fewer than `capacity` entries, and otherwise drops the
entry with a stderr diagnostic and still returns `nil`. -/
def FileLogger.write (l : FileLogger) (entry : LogEntry) :
    FileLogger × WriteResult :=
  if l.closed then
    (l, some "logger is closed")
  else
    -- bufferCh ≠ nil always holds, so this branch is taken unconditionally.
    if l.buffer.length < l.capacity then
      ({ l with buffer := l.buffer ++ [entry] }, none)
    else
      ({ l with dropped := l.dropped + 1 }, none)

/-- Model of the remaining-items drain performed by the goroutine of
`startAsyncWriter` (part_002 lines 48-69) once `close(l.bufferCh)` fires:
the receive keeps yielding the buffered entries in FIFO order (each written
by `writeEntry`), then reports the channel closed and the goroutine returns. -/
def FileLogger.drainAll (l : FileLogger) : FileLogger :=
  { l with fileData := l.fileData ++ l.buffer, buffer := [] }

/-- Outcome of a `FileLogger.Close` call.  `returned` carries the sink state
handed back to the caller.  `diverges` records that `Close` never returns:
its argument is the state reached when the drain goroutine entered
`flushBuffer`; from there the select-receive on the closed `bufferCh` is
always ready and yields a nil `*LogEntry`, which `writeEntry` marshals as a
`"null"` line, so the loop appends such lines to the file forever, the
goroutine never exits and `l.wg.Wait()` blocks `Close` indefinitely (the
file never stabilizes at the recorded contents). -/
inductive FileCloseOutcome where
  | returned (l : FileLogger)
  | diverges (l : FileLogger)
deriving Repr

/-- Model of `FileLogger.Close` (part_002 lines 111-134): idempotent; marks
closed, then `close(l.bufferCh)` and `l.wg.Wait()`.
Sync construction: no drain goroutine was started, the WaitGroup counter is
zero, the wait returns at once with the buffered entries abandoned, the
bufio writer is flushed, the file handle closed — `Close` returns.
Async construction: the drain goroutine consumes and writes the remaining
buffered entries in FIFO order, then its receive reports the channel closed
and it calls `flushBuffer` (part_002 lines 54-58, 145-156), whose
select-receive on the closed channel is always ready, so the `default`
branch is never taken: the loop appends `"null"` lines forever, the
goroutine never exits and `Close` never returns. -/
def FileLogger.close (l : FileLogger) : FileCloseOutcome :=
  if l.closed then .returned l
  else
    let l := { l with closed := true }
    if l.asyncStarted then .diverges l.drainAll else .returned l

/-- Model of `FileLogger.Flush` / `flushBuffer` (part_002 lines 137-156) on
a sink whose channel is still open: the select-receive yields each buffered
entry, and once the open channel is empty the receive would block, so the
`default` branch fires and the loop returns.  (Against a CLOSED channel the
same loop never returns — that path is captured by `FileLogger.close`.) -/
def FileLogger.flush (l : FileLogger) : FileLogger :=
  l.drainAll

/-! ## Database sink (main.go: DBLogger) -/

/-- Model of `DBLogger` (main.go lines 27-36) at a quiescent point.  `rows`
is the `request_logs` table contents in insertion order (each insert by
`insertEntry`); the rest mirrors `FileLogger`. -/
structure DBLogger where
  rows         : List LogEntry
  buffer       : List LogEntry
  capacity     : Nat
  asyncStarted : Bool
  closed       : Bool
  dropped      : Nat
deriving Repr

/-- Model of `NewDBLogger` (main.go lines 49-81): like `NewFileLogger`,
`bufferCh` is allocated unconditionally and the drain goroutine starts only
when `async` is true. -/
def NewDBLogger (async : Bool) (bufferSize : Nat) : DBLogger :=
  { rows := [], buffer := [], capacity := bufferSize,
    asyncStarted := async, closed := false, dropped := 0 }

/-- Model of `DBLogger.insertEntry` (main.go lines 185-205): one INSERT into
`request_logs`. -/
def DBLogger.insertEntry (l : DBLogger) (entry : LogEntry) : DBLogger :=
  { l with rows := l.rows ++ [entry] }

/-- Model of `DBLogger.Write` (main.go lines 208-229), structurally identical
to `FileLogger.Write`: `bufferCh` is never nil, so the trailing
`insertEntry` "sync mode" branch (line 228) is unreachable. -/
def DBLogger.write (l : DBLogger) (entry : LogEntry) :
    DBLogger × WriteResult :=
  if l.closed then
    (l, some "logger is closed")
  else
    if l.buffer.length < l.capacity then
      ({ l with buffer := l.buffer ++ [entry] }, none)
    else
      ({ l with dropped := l.dropped + 1 }, none)

/-- Drain by the goroutine of `startAsyncWriter` (main.go lines 162-182)
after `close(l.bufferCh)`: inserts every remaining buffered entry in FIFO
order, then exits. -/
def DBLogger.drainAll (l : DBLogger) : DBLogger :=
  { l with rows := l.rows ++ l.buffer, buffer := [] }

/-- Outcome of a `DBLogger.Close` call.  `returned` carries the sink state
handed back to the caller.  `panics` records that `Close` never returns:
its argument is the state reached when the drain goroutine entered
`flushBuffer`; the select-receive on the closed `bufferCh` is always ready
and yields a nil `*LogEntry`, and `insertEntry(nil)` dereferences
`entry.CustomFields` on the nil pointer — the goroutine panics and the
unrecovered panic crashes the process. -/
inductive DBCloseOutcome where
  | returned (l : DBLogger)
  | panics (l : DBLogger)
deriving Repr

/-- Model of `DBLogger.Close` (main.go lines 232-250): idempotent; marks
closed, then closes the channel and waits on the WaitGroup.
Sync construction: no drain goroutine, the wait returns at once with the
buffered entries abandoned, the database handle is closed — `Close`
returns.  Async construction: the drain goroutine inserts the remaining
buffered entries in FIFO order, then its receive reports the channel closed
and it calls `flushBuffer` (main.go lines 168-171, 261-272), whose
select-receive on the closed channel is always ready and yields nil;
`insertEntry(nil)` nil-dereferences and the goroutine's panic crashes the
process, so `Close` never returns. -/
def DBLogger.close (l : DBLogger) : DBCloseOutcome :=
  if l.closed then .returned l
  else
    let l := { l with closed := true }
    if l.asyncStarted then .panics l.drainAll else .returned l

/-- Model of `DBLogger.Flush` / `flushBuffer` (main.go lines 253-272) on a
sink whose channel is still open (the closed-channel path is captured by
`DBLogger.close`). -/
def DBLogger.flush (l : DBLogger) : DBLogger :=
  l.drainAll

/-! ## Configuration (config.go) and middleware (part_001) -/

/-- Model of `DefaultTimeFormat` (config.go line 6). -/
def DefaultTimeFormat : String := "2006-01-02T15:04:05.000Z07:00"

/-- Model of `Config` (config.go lines 9-23).  The embedded `sync.RWMutex`
guards snapshot reads; at the quiescent points we model, the lock plays no
role.  `customFields` models the Go map (`none` = nil map). -/
structure Config where
  enabled      : Bool
  skipPaths    : List String
  customFields : Option (List (String × Json))
  timeFormat   : String
  async        : Bool
  bufferSize   : Int
deriving Repr

/-- Model of `DefaultConfig` (config.go lines 26-35). -/
def DefaultConfig : Config :=
  { enabled := true,
    skipPaths := ["/health", "/metrics",
                  "/.well-known/appspecific/com.chrome.devtools.json"],
    customFields := none,
    timeFormat := DefaultTimeFormat,
    async := true,
    bufferSize := 1000 }

/-- Model of the configuration normalization at the head of
`RequestLoggerWithConfig` (part_001 lines 26-36): nil config becomes
`DefaultConfig()`, empty `TimeFormat` becomes `DefaultTimeFormat`,
non-positive `BufferSize` becomes 1000. -/
def normalizeConfig (cfg : Option Config) : Config :=
  let c := match cfg with
           | none => DefaultConfig
           | some c => c
  let c := if c.timeFormat = "" then { c with timeFormat := DefaultTimeFormat } else c
  if c.bufferSize ≤ 0 then { c with bufferSize := 1000 } else c

/-- The inbound request facts the middleware reads (method, URL path,
client IP, User-Agent — part_001 lines 88-94 and `c.Request`). -/
structure Request where
  method    : String
  path      : String
  clientIP  : String
  userAgent : String
deriving Repr

/-- The request-scoped `gin.Context` state the middleware touches: the
keyed store at `logEntryKey` (`c.Set` / `c.Get`) and the response status
(`c.Writer.Status()` after the handler chain ran). -/
structure Ctx where
  stored : Option LogEntry
  status : Int
deriving Repr

/-- Model of `GetLogEntry` (part_001 lines 135-142): reads the entry stored
under `logEntryKey` in the context, `none` when absent. -/
def GetLogEntry (c : Ctx) : Option LogEntry :=
  c.stored

/-- Model of `SetLogField` (part_001 lines 145-152): if the context holds an
entry, adds `(key, value)` to its custom-fields map (allocating the map when
nil); if `GetLogEntry` yields nothing, the call is a no-op. -/
def SetLogField (c : Ctx) (key : String) (value : Json) : Ctx :=
  match GetLogEntry c with
  | none => c
  | some e =>
      let fields := match e.customFields with
                    | none => []
                    | some fs => fs
      { c with stored := some { e with customFields := some (fields ++ [(key, value)]) } }

/-- Downstream code of one request: everything `c.Next()` runs (later
middlewares and the handler), as a transformer of the request-scoped
context it was handed. -/
abbrev Handler := Ctx → Ctx

/-- Model of the per-request body of the middleware returned by
`RequestLoggerWithConfig` (part_001 lines 39-131), at the granularity of one
request.  Inputs beyond the snapshot: the downstream `Handler` (run by
`c.Next()`), the request facts, the measured duration (ms) and formatted
timestamp (the two `time.Now()` reads), and the incoming context.  Output:
the final context and the entry dispatched to `logger.Write` (`none` when
disabled or path-skipped).  Faithful ordering: the config snapshot is taken,
the enabled/skip checks run, `c.Next()` runs the downstream code, THEN the
entry is built, the snapshot's custom-fields template is copied in,
`c.Set(logEntryKey, entry)` stores it, and the entry (copied first in async
mode) is handed to `logger.Write` immediately. -/
def runRequestLogger (cfg : Config) (handler : Handler) (req : Request)
    (durationMs : ℚ) (timestamp : String) (c : Ctx) :
    Ctx × Option LogEntry :=
  -- snapshot under RLock (lines 41-47)
  let isEnabled := cfg.enabled
  let skipPaths := cfg.skipPaths
  let customFields := cfg.customFields
  -- enabled check (lines 50-53)
  if !isEnabled then
    (handler c, none)
  -- skip-path check: exact string equality (lines 56-64)
  else if skipPaths.length > 0 && skipPaths.contains req.path then
    (handler c, none)
  else
    -- c.Next() (line 77): downstream code runs on the context, which does
    -- not yet hold a log entry
    let c := handler c
    -- build the entry from the completed request (lines 88-105)
    let entry := NewLogEntry req.method req.path req.clientIP req.userAgent
                   c.status durationMs timestamp
    -- copy the snapshot's custom-fields template (lines 108-113)
    let entry := match customFields with
                 | none => entry
                 | some t => { entry with customFields := some t }
    -- c.Set(string(logEntryKey), entry) (line 116)
    let c := { c with stored := some entry }
    -- dispatch (lines 118-130): async hands a copy to Write in a goroutine,
    -- sync calls Write inline; either way the dispatched value is `entry`
    (c, some entry)

/-! ## Database read path (main.go: QueryLogs, CountLogs, DeleteOldLogs,
EscapeLike) -/

/-- Model of a `request_logs` row (`DBLogEntry`, main.go lines 275-286).
`createdAt` is the row-creation time in days on a rational timeline. -/
structure DBRow where
  id           : Int
  method       : String
  path         : String
  clientIP     : String
  userAgent    : String
  statusCode   : Int
  duration     : ℚ
  timestamp    : String
  customFields : String
  createdAt    : ℚ
deriving Repr, DecidableEq

/-- Model of the `conditions map[string]interface\x7b\x7d` consulted by
`QueryLogs`/`CountLogs`: `none` models an absent key.  (The Go code also
treats an empty-string / zero value as absent; callers model that by passing
`none`, and the `≠ ""` / `≠ 0` re-checks are kept in the predicates.) -/
structure QueryConds where
  method     : Option String := none
  path       : Option String := none
  statusCode : Option Int := none
  startTime  : Option ℚ := none
  endTime    : Option ℚ := none
deriving Repr

/-- SQL `LIKE` pattern matching (pattern against subject), with `%` matching
any run of characters, `_` matching exactly one character, and backslash
escaping the following pattern character — the semantics the database
applies to the `path LIKE $n` predicate that `QueryLogs` builds.  The `fuel`
argument only bounds the recursion (each step shrinks pattern-plus-subject,
so `likeMatch` below supplies enough fuel for the bound never to bite). -/
def likeMatchF (fuel : Nat) (ps s : List Char) : Bool :=
  match fuel with
  | 0 => false
  | fuel + 1 =>
    match ps, s with
    | [], [] => true
    | [], _ :: _ => false
    | '%' :: ps, [] => likeMatchF fuel ps []
    | '%' :: ps, c :: t => likeMatchF fuel ps (c :: t) || likeMatchF fuel ('%' :: ps) t
    | '_' :: _, [] => false
    | '_' :: ps, _ :: t => likeMatchF fuel ps t
    | '\\' :: _ :: _, [] => false
    | '\\' :: p :: ps, d :: t => p == d && likeMatchF fuel ps t
    | _ :: _, [] => false
    | p :: ps, d :: t => p == d && likeMatchF fuel ps t

/-- `LIKE` matching with the recursion bound fully provisioned. -/
def likeMatch (ps s : List Char) : Bool :=
  likeMatchF (ps.length + s.length + 1) ps s

/-- `LIKE` on strings. -/
def likeMatchStr (pattern subject : String) : Bool :=
  likeMatch pattern.toList subject.toList

/-- `strings.ReplaceAll` for a one-character pattern, on character lists. -/
def replaceChar (target : Char) (rep : List Char) : List Char → List Char
  | [] => []
  | c :: cs => (if c = target then rep else [c]) ++ replaceChar target rep cs

/-- Model of `EscapeLike` (main.go lines 569-574): the three
`strings.ReplaceAll` passes escape `\`, `%` and `_` with a backslash so
they match literally under `LIKE`.  Note: no caller in the repository
invokes it — `QueryLogs` interpolates the raw filter string into the
pattern. -/
def EscapeLike (s : String) : String :=
  ⟨replaceChar '_' ['\\', '_']
    (replaceChar '%' ['\\', '%']
      (replaceChar '\\' ['\\', '\\'] s.toList))⟩

/-- Literal prefix test on character lists. -/
def litPrefix : List Char → List Char → Bool
  | [], _ => true
  | _ :: _, [] => false
  | a :: as, b :: bs => a == b && litPrefix as bs

/-- Literal, case-sensitive substring containment (`hay` contains `pat`), the
semantics the spec ascribes to the path filter. -/
def containsLit : List Char → List Char → Bool
  | hay, pat =>
    litPrefix pat hay ||
      match hay with
      | [] => false
      | _ :: t => containsLit t pat

/-- Literal substring containment on strings. -/
def containsLitStr (hay pat : String) : Bool :=
  containsLit hay.toList pat.toList

/-- The WHERE-clause conjunction `QueryLogs` assembles (main.go lines
295-329): exact method match (when the `method` condition is present and
non-empty), `path LIKE '%' + p + '%'` with the RAW filter string (lines
304-310 — `EscapeLike` is not applied), exact status-code match (when
present and non-zero), and `created_at` lower/upper bounds; absent
conditions contribute no conjunct. -/
def queryPred (cs : QueryConds) (r : DBRow) : Bool :=
  (match cs.method with
   | some m => if m ≠ "" then r.method == m else true
   | none => true) &&
  (match cs.path with
   | some p => if p ≠ "" then likeMatchStr ("%" ++ p ++ "%") r.path else true
   | none => true) &&
  (match cs.statusCode with
   | some sc => if sc ≠ 0 then r.statusCode == sc else true
   | none => true) &&
  (match cs.startTime with
   | some t => t ≤ r.createdAt
   | none => true) &&
  (match cs.endTime with
   | some t => r.createdAt ≤ t
   | none => true)

/-- Insertion step for `ORDER BY created_at DESC`. -/
def insertDesc (r : DBRow) : List DBRow → List DBRow
  | [] => [r]
  | x :: xs => if x.createdAt < r.createdAt then r :: x :: xs else x :: insertDesc r xs

/-- `ORDER BY created_at DESC` over the matching rows. -/
def sortDesc : List DBRow → List DBRow
  | [] => []
  | r :: rs => insertDesc r (sortDesc rs)

/-- Model of `DBLogger.QueryLogs` (main.go lines 289-359) over an explicit
table state: filter by the assembled conjunction, order by `created_at`
descending, apply `LIMIT limit OFFSET offset`.  (The `convertToLocalTime`
post-processing rewrites the timezone of `CreatedAt` in the returned copies
only; on the abstract rational timeline it is the identity.) -/
def queryLogs (table : List DBRow) (offset limit : Nat) (cs : QueryConds) :
    List DBRow :=
  ((sortDesc (table.filter (queryPred cs))).drop offset).take limit

/-- The WHERE-clause conjunction `CountLogs` assembles (main.go lines
365-387): method, `created_at` lower bound and upper bound ONLY — the
`path` and `status_code` conditions are never consulted. -/
def countPred (cs : QueryConds) (r : DBRow) : Bool :=
  (match cs.method with
   | some m => if m ≠ "" then r.method == m else true
   | none => true) &&
  (match cs.startTime with
   | some t => t ≤ r.createdAt
   | none => true) &&
  (match cs.endTime with
   | some t => r.createdAt ≤ t
   | none => true)

/-- Model of `DBLogger.CountLogs` (main.go lines 362-392): `SELECT COUNT(*)`
under `countPred`. -/
def countLogs (table : List DBRow) (cs : QueryConds) : Nat :=
  (table.filter (countPred cs)).length

/-- Model of `DBLogger.DeleteOldLogs` (main.go lines 420-432):
`DELETE FROM request_logs WHERE created_at < NOW() - INTERVAL 'days days'`
(the MySQL and PostgreSQL spellings build the same predicate), returning the
remaining table and `RowsAffected()`.  `now` is the destination-local
current time in days. -/
def deleteOldLogs (table : List DBRow) (days : Int) (now : ℚ) :
    List DBRow × Nat :=
  (table.filter (fun r => !(r.createdAt < now - (days : ℚ))),
   (table.filter (fun r => r.createdAt < now - (days : ℚ))).length)

/-- The member keys of a serialized JSON object (empty for non-objects). -/
def jsonKeys : Json → List String
  | Json.obj fs => fs.map Prod.fst
  | _ => []

/-- Whether a serialized value is a single JSON object. -/
def jsonIsObj : Json → Bool
  | Json.obj _ => true
  | _ => false

/-- The member list of a serialized JSON object. -/
def jsonMembers : Json → List (String × Json)
  | Json.obj fs => fs
  | _ => []

/-! ## Concrete instances used by the theorems -/

/-- A sample completed-request entry (no custom fields). -/
def entA : LogEntry :=
  NewLogEntry "GET" "/api/users" "192.168.1.100" "Mozilla/5.0" 200 15
    "2026-02-14T10:30:00.123Z"

/-- The same entry with the custom fields of the spec's round-trip example. -/
def entU : LogEntry :=
  { entA with customFields := some [("user_id", Json.str "12345")] }

/-- Downstream handler code that tries to add a custom field to the
in-flight entry through the provided accessor. -/
def userHandler : Handler :=
  fun c => SetLogField c "user_id" (Json.str "12345")

/-- An enabled configuration with an empty skip set. -/
def noSkipCfg : Config := { DefaultConfig with skipPaths := [] }

/-- A sample inbound request. -/
def reqA : Request :=
  { method := "GET", path := "/api/users", clientIP := "192.168.1.100",
    userAgent := "Mozilla/5.0" }

/-- A stored row with status 200. -/
def rowS200 : DBRow :=
  { id := 1, method := "GET", path := "/api/users", clientIP := "c",
    userAgent := "u", statusCode := 200, duration := 10, timestamp := "t",
    customFields := "", createdAt := 0 }

/-- A stored row with status 404 and a different path. -/
def rowS404 : DBRow :=
  { rowS200 with id := 2, path := "/admin", statusCode := 404 }

/-- A stored row whose path is the literal string `/abc`. -/
def rowAbc : DBRow :=
  { rowS200 with id := 3, path := "/abc" }

/-- A row created `age` days before the reference instant 0. -/
def rowAge (i : Int) (age : ℚ) : DBRow :=
  { rowS200 with id := i, createdAt := -age }

/-- A degenerate configuration exercising every normalization fixup. -/
def emptyCfg : Config :=
  { enabled := false, skipPaths := [], customFields := none,
    timeFormat := "", async := false, bufferSize := 0 }

end ReqLog

namespace ReqLog

/-- C1: the claim says a sink constructed with `async = false` performs the
durable write inline in `Write` and does not merely stage the entry.  The
code does the opposite: `NewFileLogger`/`NewDBLogger` allocate `bufferCh`
unconditionally, so `Write`'s `bufferCh != nil` test always succeeds, the
entry is only staged in the buffer, the destination stays untouched, and the
inline-write branch is dead code.  This theorem evaluates both sinks at the
failing input: a sync-constructed sink, one `Write`, success returned, no
durable write, entry sitting in the buffer. -/
theorem c1_sync_write_stages_instead_of_inline :
    (((NewFileLogger false 10).write entA).2 = none ∧
     ((NewFileLogger false 10).write entA).1.fileData = [] ∧
     ((NewFileLogger false 10).write entA).1.buffer = [entA]) ∧
    (((NewDBLogger false 10).write entA).2 = none ∧
     ((NewDBLogger false 10).write entA).1.rows = [] ∧
     ((NewDBLogger false 10).write entA).1.buffer = [entA]) :=
  ⟨⟨rfl, rfl, rfl⟩, ⟨rfl, rfl, rfl⟩⟩

/-- C2: the claim says every entry staged in the buffer before `Close` is
persisted to the destination exactly once before `Close` returns, for async
and sync construction alike (matching the spec's unconditional Sink
invariant).  The code violates it in both modes.  Sync construction: no
drain goroutine exists, so `Close` waits on a zero WaitGroup and returns
with the staged entry never persisted.  Async construction: the staged
entry is drained, but `flushBuffer`'s select-receive on the closed channel
is always ready, so the drain goroutine never exits and `Close` never
returns — the FileLogger keeps appending `"null"` lines forever and the
DBLogger nil-dereferences and panics.  Evaluation at the failing inputs:
one staged entry, then `Close`, in each mode for each sink. -/
theorem c2_close_loses_entries_or_never_returns :
    (((NewFileLogger false 10).write entA).2 = none ∧
     ((NewFileLogger false 10).write entA).1.buffer = [entA] ∧
     ((NewFileLogger false 10).write entA).1.close
        = FileCloseOutcome.returned
            { fileData := [], buffer := [entA], capacity := 10,
              asyncStarted := false, closed := true, dropped := 0 }) ∧
    (((NewDBLogger false 10).write entA).2 = none ∧
     ((NewDBLogger false 10).write entA).1.buffer = [entA] ∧
     ((NewDBLogger false 10).write entA).1.close
        = DBCloseOutcome.returned
            { rows := [], buffer := [entA], capacity := 10,
              asyncStarted := false, closed := true, dropped := 0 }) ∧
    ((NewFileLogger true 10).write entA).1.close
        = FileCloseOutcome.diverges
            { fileData := [entA], buffer := [], capacity := 10,
              asyncStarted := true, closed := true, dropped := 0 } ∧
    ((NewDBLogger true 10).write entA).1.close
        = DBCloseOutcome.panics
            { rows := [entA], buffer := [], capacity := 10,
              asyncStarted := true, closed := true, dropped := 0 } :=
  ⟨⟨rfl, rfl, rfl⟩, ⟨rfl, rfl, rfl⟩, rfl, rfl⟩

/-- C3: for every async-constructed sink (file or store), `Write` has exactly
the three claimed outcomes: not closed with free capacity → entry enqueued
and `nil` returned; not closed with a full buffer → entry dropped, exactly
one diagnostic emitted, `nil` still returned; closed → the "closed" error
returned and nothing staged or otherwise changed. -/
theorem c3_async_write_three_outcomes
    (f : FileLogger) (d : DBLogger) (e : LogEntry)
    (hf : f.asyncStarted = true) (hd : d.asyncStarted = true) :
    ((f.closed = false → f.buffer.length < f.capacity →
        f.write e = ({ f with buffer := f.buffer ++ [e] }, none)) ∧
     (f.closed = false → ¬ f.buffer.length < f.capacity →
        f.write e = ({ f with dropped := f.dropped + 1 }, none)) ∧
     (f.closed = true → f.write e = (f, some "logger is closed"))) ∧
    ((d.closed = false → d.buffer.length < d.capacity →
        d.write e = ({ d with buffer := d.buffer ++ [e] }, none)) ∧
     (d.closed = false → ¬ d.buffer.length < d.capacity →
        d.write e = ({ d with dropped := d.dropped + 1 }, none)) ∧
     (d.closed = true → d.write e = (d, some "logger is closed"))) := by
  refine ⟨⟨?_, ?_, ?_⟩, ⟨?_, ?_, ?_⟩⟩ <;> intros <;>
    simp_all [FileLogger.write, DBLogger.write]

/-- Witness for C3 at concrete sinks: a free-capacity enqueue, a full-buffer
drop (capacity 0), and a closed-sink rejection. -/
theorem c3_async_write_three_outcomes_witness :
    (NewFileLogger true 2).write entA
        = ({ NewFileLogger true 2 with buffer := [entA] }, none) ∧
    (NewDBLogger true 0).write entA
        = ({ NewDBLogger true 0 with dropped := 1 }, none) ∧
    ({ NewFileLogger true 2 with closed := true } : FileLogger).write entA
        = ({ NewFileLogger true 2 with closed := true }, some "logger is closed") := by
  have h := c3_async_write_three_outcomes (NewFileLogger true 2)
    (NewDBLogger true 0) entA rfl rfl
  have h2 := c3_async_write_three_outcomes
    ({ NewFileLogger true 2 with closed := true }) (NewDBLogger true 0) entA
    rfl rfl
  exact ⟨by simpa using h.1.1 rfl (by decide),
         by simpa using h.2.2.1 rfl (by decide),
         h2.1.2.2 rfl⟩

/-- C4: the claim says downstream code in the same request lifecycle can use
`GetLogEntry`/`SetLogField` to add fields to the in-flight entry before
dispatch, and those fields appear in the persisted record.  In the code the
entry is built and stored with `c.Set` only AFTER `c.Next()` returns, and is
dispatched immediately afterwards, so downstream code always runs against a
context with no entry: `SetLogField` is a no-op and the added field never
reaches the dispatched record.  Evaluation at the failing input: a handler
that calls `SetLogField "user_id" "12345"`; the entry is dispatched, without
custom fields, even though the entry does get attached to the context — too
late for anything to read it. -/
theorem c4_handler_added_field_never_persisted :
    userHandler { stored := none, status := 200 }
        = { stored := none, status := 200 } ∧
    (runRequestLogger noSkipCfg userHandler reqA 15 "ts"
        { stored := none, status := 200 }).2.isSome = true ∧
    ((runRequestLogger noSkipCfg userHandler reqA 15 "ts"
        { stored := none, status := 200 }).2.bind
      (fun e => e.customFields)) = none ∧
    (runRequestLogger noSkipCfg userHandler reqA 15 "ts"
        { stored := none, status := 200 }).1.stored.isSome = true :=
  ⟨rfl, rfl, rfl, rfl⟩

/-- C5: the claim says `CountLogs` applies the same predicate as `QueryLogs`,
in particular for the path and status-code filters.  `CountLogs` never
consults the `path` and `status_code` conditions, so on a two-row table a
status filter (or a path filter) leaves the count at 2 while the query
returns 1 row; with only the filters `CountLogs` does consult (method), the
two agree. -/
theorem c5_count_ignores_path_and_status_filters :
    countLogs [rowS200, rowS404] { statusCode := some 404 } = 2 ∧
    (queryLogs [rowS200, rowS404] 0 100 { statusCode := some 404 }).length = 1 ∧
    countLogs [rowS200, rowS404] { path := some "/admin" } = 2 ∧
    (queryLogs [rowS200, rowS404] 0 100 { path := some "/admin" }).length = 1 ∧
    countLogs [rowS200, rowS404] { method := some "GET" }
      = (queryLogs [rowS200, rowS404] 0 100 { method := some "GET" }).length := by
  decide

/-- C6: the claim says the path filter `p` matches literally, with `%`, `_`
and `\` stripped of their wildcard meaning.  `QueryLogs` interpolates the
raw `p` into `LIKE '%' + p + '%'` without calling `EscapeLike`, so `_`
matches any one character and `%` any run: the filter `/a_c` returns the row
with path `/abc` although `/abc` does not contain `/a_c` literally, and the
filter `%` returns it although it contains no `%`.  Escaping the filter the
way the unused `EscapeLike` would have done restores the claimed literal
semantics (no match). -/
theorem c6_path_filter_interprets_wildcards :
    queryLogs [rowAbc] 0 100 { path := some "/a_c" } = [rowAbc] ∧
    containsLitStr "/abc" "/a_c" = false ∧
    queryLogs [rowAbc] 0 100 { path := some "%" } = [rowAbc] ∧
    containsLitStr "/abc" "%" = false ∧
    EscapeLike "/a_c" = "/a\\_c" ∧
    queryLogs [rowAbc] 0 100 { path := some (EscapeLike "/a_c") } = [] := by
  decide

/-- C7: the middleware dispatches an entry for a request exactly when the
config snapshot is enabled and the request path is not string-equal to any
skip-set element; a disabled snapshot yields no entry and a path that is a
proper substring of a skip entry still yields one. -/
theorem c7_entry_iff_enabled_and_not_skipped
    (cfg : Config) (handler : Handler) (req : Request) (d : ℚ) (ts : String)
    (c : Ctx) :
    (runRequestLogger cfg handler req d ts c).2.isSome
      = (cfg.enabled && !(cfg.skipPaths.contains req.path)) := by
  rcases cfg with ⟨en, sp, cf, tf, asy, bs⟩
  cases en <;> cases sp <;> simp [runRequestLogger]
  rename_i hd tl
  by_cases h : (hd :: tl).contains req.path <;> simp_all
  tauto

/-- C8: serializing any `LogEntry` yields a single JSON object whose member
keys are exactly `method, path, client_ip, user_agent, status_code,
duration_ms, timestamp`, plus `custom_fields` exactly when the custom-fields
map is non-empty; on the spec's concrete example, the object contains
`"status_code": 200` and `"custom_fields": ("user_id": "12345")`, and the
variant without custom fields omits the key entirely. -/
theorem c8_marshal_json_object_shape :
    (∀ e : LogEntry,
       jsonIsObj (marshalLogEntry e) = true ∧
       jsonKeys (marshalLogEntry e)
         = ["method", "path", "client_ip", "user_agent", "status_code",
            "duration_ms", "timestamp"]
           ++ (if e.customEmpty then [] else ["custom_fields"])) ∧
    ("status_code", Json.num 200) ∈ jsonMembers (marshalLogEntry entU) ∧
    ("custom_fields", Json.obj [("user_id", Json.str "12345")])
      ∈ jsonMembers (marshalLogEntry entU) ∧
    jsonKeys (marshalLogEntry entA)
      = ["method", "path", "client_ip", "user_agent", "status_code",
         "duration_ms", "timestamp"] := by
  refine ⟨?_, ?_, ?_, rfl⟩
  · intro e
    rcases h : e.customFields with _ | (_ | ⟨p, fs⟩) <;>
      simp [marshalLogEntry, jsonKeys, jsonIsObj, LogEntry.customEmpty, h]
  · exact List.Mem.tail _ (List.Mem.tail _ (List.Mem.tail _
      (List.Mem.tail _ (List.Mem.head _))))
  · exact List.Mem.tail _ (List.Mem.tail _ (List.Mem.tail _
      (List.Mem.tail _ (List.Mem.tail _ (List.Mem.tail _
        (List.Mem.tail _ (List.Mem.head _)))))))

/-- C9: for positive `days`, `DeleteOldLogs` removes exactly the rows whose
creation time lies more than `days` days before the destination's current
time (boundary at exactly `days` ago excluded), returns the number of rows
removed, and on the spec's scenario (rows aged 10, 8, 6, 1 days, `days = 7`)
removes exactly the rows aged 10 and 8. -/
theorem c9_deleteOldLogs_removes_older_than_days
    (table : List DBRow) (days : Int) (now : ℚ) (_h : 0 < days) :
    (deleteOldLogs table days now).1
        = table.filter (fun r => decide (now - r.createdAt ≤ (days : ℚ))) ∧
    (deleteOldLogs table days now).2
        = (table.filter (fun r => decide ((days : ℚ) < now - r.createdAt))).length ∧
    deleteOldLogs [rowAge 1 10, rowAge 2 8, rowAge 3 6, rowAge 4 1] 7 0
        = ([rowAge 3 6, rowAge 4 1], 2) := by
  refine ⟨?_, ?_, by norm_num [deleteOldLogs, rowAge, rowS200, List.filter]⟩
  · unfold deleteOldLogs
    dsimp only
    refine List.filter_congr ?_
    intro r _
    simp only [← decide_not, decide_eq_decide, not_lt]
    constructor <;> intro <;> linarith
  · unfold deleteOldLogs
    dsimp only
    congr 1
    refine List.filter_congr ?_
    intro r _
    simp only [decide_eq_decide]
    constructor <;> intro <;> linarith

/-- Witness for C9: the scenario count at `days = 7`. -/
theorem c9_deleteOldLogs_removes_older_than_days_witness :
    (0 : Int) < 7 ∧
    (deleteOldLogs [rowAge 1 10, rowAge 2 8, rowAge 3 6, rowAge 4 1] 7 0).2
      = 2 := by
  have h := c9_deleteOldLogs_removes_older_than_days
    [rowAge 1 10, rowAge 2 8, rowAge 3 6, rowAge 4 1] 7 0 (by decide)
  exact ⟨by decide, by rw [h.2.2]⟩

/-- Characterization of `normalizeConfig` on a non-nil config: the two
fixups of part_001 lines 31-36, all other fields untouched. -/
lemma normalizeConfig_some (c : Config) :
    normalizeConfig (some c) =
      { c with
        timeFormat := if c.timeFormat = "" then DefaultTimeFormat else c.timeFormat,
        bufferSize := if c.bufferSize ≤ 0 then 1000 else c.bufferSize } := by
  unfold normalizeConfig
  rcases c with ⟨en, sp, cf, tf, asy, bs⟩
  by_cases h1 : tf = "" <;> by_cases h2 : bs ≤ 0 <;> simp [h1, h2]

/-- C10: `RequestLoggerWithConfig` normalizes its configuration before use:
a nil config becomes the full default config, an empty `TimeFormat` becomes
`DefaultTimeFormat` (and a non-empty one is kept), a non-positive
`BufferSize` becomes 1000 (and a positive one is kept); the normalized
config never has an empty time format or a non-positive buffer size. -/
theorem c10_config_normalization (c : Config) :
    normalizeConfig none = DefaultConfig ∧
    (c.timeFormat = "" →
      (normalizeConfig (some c)).timeFormat = DefaultTimeFormat) ∧
    (c.timeFormat ≠ "" →
      (normalizeConfig (some c)).timeFormat = c.timeFormat) ∧
    (c.bufferSize ≤ 0 → (normalizeConfig (some c)).bufferSize = 1000) ∧
    (0 < c.bufferSize → (normalizeConfig (some c)).bufferSize = c.bufferSize) ∧
    (normalizeConfig (some c)).timeFormat ≠ "" ∧
    0 < (normalizeConfig (some c)).bufferSize ∧
    (normalizeConfig none).timeFormat ≠ "" ∧
    0 < (normalizeConfig none).bufferSize := by
  rw [normalizeConfig_some]
  refine ⟨rfl, ?_, ?_, ?_, ?_, ?_, ?_, by decide, by decide⟩ <;>
    by_cases h1 : c.timeFormat = "" <;> by_cases h2 : c.bufferSize ≤ 0 <;>
      simp_all [DefaultTimeFormat] <;> omega

/-- Witness for C10 at a degenerate config exercising every fixup. -/
theorem c10_config_normalization_witness :
    (normalizeConfig (some emptyCfg)).timeFormat = DefaultTimeFormat ∧
    (normalizeConfig (some emptyCfg)).bufferSize = 1000 := by
  have h := c10_config_normalization emptyCfg
  exact ⟨h.2.1 rfl, h.2.2.2.1 (by decide)⟩

end ReqLog
